import Mathlib

/-
  Verification of the Moody surface-plate analysis program (moody.c).

  The program's worksheet arrays ws[8][9][MAX_STATIONS] of C floats are
  embedded with exact rational arithmetic: each worksheet is a Sheet whose
  columns are total functions from station index to the rational value,
  mirroring the zero-initialised global array.  Column names follow Moody's
  worksheet (col1..col8, col6a); the C array index k stores Moody column k+1,
  and Moody column 6a of the two center lines is stored at C index 8.
-/

namespace Moody

/-- MAX_STATIONS from moody.c, the station capacity of every line. -/
def MAX_STATIONS : ℕ := 128

/-- One arc second in radians, as computed by moody.c:
    2.0*3.141592/(360.0*60*60), taken with exact rational arithmetic. -/
def arcsec : ℚ := 2 * (3.141592 : ℚ) / (360 * 60 * 60)

/-- One worksheet of the C array ws[i]: station count num_dat[i] plus the
    nine columns ws[i][0..8].  Moody column k is field colk; C index 8
    (Moody column 6a of center lines) is field col6a. -/
structure Sheet where
  ndat : ℕ
  col1 : ℕ → ℚ
  col2 : ℕ → ℚ
  col3 : ℕ → ℚ
  col4 : ℕ → ℚ
  col5 : ℕ → ℚ
  col6 : ℕ → ℚ
  col6a : ℕ → ℚ
  col7 : ℕ → ℚ
  col8 : ℕ → ℚ

/-- The zero-initialised global worksheet, as C static storage guarantees. -/
def emptySheet : Sheet where
  ndat := 0
  col1 := fun _ => 0
  col2 := fun _ => 0
  col3 := fun _ => 0
  col4 := fun _ => 0
  col5 := fun _ => 0
  col6 := fun _ => 0
  col6a := fun _ => 0
  col7 := fun _ => 0
  col8 := fun _ => 0

/-- Embeds the storage effect of read_data: the k-th parsed reading
    (k = 1,2,...) is stored at ws[i][1][k], i.e. col2 index k; index 0 is
    never written and keeps the initial 0.  num_dat becomes the number of
    readings. -/
def init_sheet (rs : List ℚ) : Sheet :=
  { emptySheet with
    ndat := rs.length
    col2 := fun j => if j = 0 then 0 else rs.getD (j - 1) 0 }

/-- Outcome of read_data: either the number of accepted readings, or one of
    its two fatal exits (too many stations / fewer than 3 data lines). -/
inductive ReadResult where
  | ok (n : ℕ) : ReadResult
  | tooMany : ReadResult
  | tooFew : ReadResult
deriving DecidableEq

/-- Embeds the read loop of read_data: for each parsed line, lines_read is
    incremented and the run aborts as soon as lines_read >= MAX_STATIONS-2;
    after the loop it aborts if lines_read < 3. -/
def read_loop : List ℚ → ℕ → ReadResult
  | [], n => if n < 3 then ReadResult.tooFew else ReadResult.ok n
  | _ :: t, n =>
      if MAX_STATIONS - 2 ≤ n + 1 then ReadResult.tooMany else read_loop t (n + 1)

/-- Embeds read_data's accept/reject behaviour on the parsed readings of one
    input file (parse failures of single lines are outside the model). -/
def read_data (rs : List ℚ) : ReadResult := read_loop rs 0

/-- Embeds mid_value of moody.c on a column c with row count ndat+1:
    if ndat is even the single element at ndat/2, otherwise the average of
    the elements at (ndat-1)/2 and (ndat+1)/2 (integer division). -/
def mid_value (ndat : ℕ) (c : ℕ → ℚ) : ℚ :=
  if ndat % 2 = 0 then c (ndat / 2)
  else (1 / 2) * (c ((ndat - 1) / 2) + c ((ndat + 1) / 2))

/-- Embeds the Moody column 4 recursion of first_four_columns:
    ws[i][3][0] = ws[i][3][1] = 0 and ws[i][3][j] = ws[i][3][j-1] + c3 j. -/
def sum_col4 (c3 : ℕ → ℚ) : ℕ → ℚ
  | 0 => 0
  | 1 => 0
  | j + 2 => sum_col4 c3 (j + 1) + c3 (j + 2)

/-- Embeds first_four_columns of moody.c: col1[j] = j+1 for j = 0..ndat,
    col3[j] = col2[j] - col2[1] for j = 1..ndat (note index 1: the first
    reading is stored at col2 index 1), and col4 the running sum of col3
    with col4[0] = col4[1] = 0.  Stations beyond ndat keep old values. -/
def first_four_columns (s : Sheet) : Sheet :=
  { s with
    col1 := fun j => if j ≤ s.ndat then (j : ℚ) + 1 else s.col1 j
    col3 := fun j => if 1 ≤ j ∧ j ≤ s.ndat then s.col2 j - s.col2 1 else s.col3 j
    col4 := fun j =>
      if j ≤ s.ndat then
        sum_col4 (fun k => if 1 ≤ k ∧ k ≤ s.ndat then s.col2 k - s.col2 1 else s.col3 k) j
      else s.col4 j }

/-- Embeds diagonal_correction of moody.c: a = -1.0*col4[ndat]/ndat,
    b = 0.5*col4[ndat] - mid_value(col4), then for j = 0..ndat
    col5[j] = a*j + b and col6[j] = col4[j] + col5[j]. -/
def diagonal_correction (s : Sheet) : Sheet :=
  { s with
    col5 := fun j =>
      if j ≤ s.ndat then (-1 * s.col4 s.ndat / (s.ndat : ℚ)) * (j : ℚ) +
        ((1 / 2) * s.col4 s.ndat - mid_value s.ndat s.col4)
      else s.col5 j
    col6 := fun j =>
      if j ≤ s.ndat then
        s.col4 j + ((-1 * s.col4 s.ndat / (s.ndat : ℚ)) * (j : ℚ) +
          ((1 / 2) * s.col4 s.ndat - mid_value s.ndat s.col4))
      else s.col6 j }

/-- Value written first by shift_lines: ws[i][4][ndat] = ws[i][5][ndat]-ws[i][3][ndat]. -/
def c5N (s : Sheet) : ℚ := s.col6 s.ndat - s.col4 s.ndat

/-- Column 5 of sheet s after the first assignment of shift_lines (the
    endpoint back-solve), before the downward loop runs. -/
def c5a (s : Sheet) (j : ℕ) : ℚ := if j = s.ndat then c5N s else s.col5 j

/-- The uniform correction factor of shift_lines, computed after the endpoint
    back-solve: (ws[i][4][0]-ws[i][4][ndat])/ndat. -/
def correction_factor (s : Sheet) : ℚ := (c5a s 0 - c5a s s.ndat) / (s.ndat : ℚ)

/-- Values produced by the downward loop of shift_lines: shift_rec c5N cf k is
    the value the loop stores in col5[ndat-k] (k steps above the bottom end,
    each step adding the correction factor once). -/
def shift_rec (e cf : ℚ) : ℕ → ℚ
  | 0 => e
  | k + 1 => shift_rec e cf k + cf

/-- Embeds the column-5/column-6 part of shift_lines of moody.c: the endpoint
    back-solve, then for j = ndat-1 down to 1, col5[j] = col5[j+1]+cf and
    col6[j] = col5[j]+col4[j].  Stations outside 1..ndat-1 keep the values of
    the back-solved state. -/
def shift_core (s : Sheet) : Sheet :=
  { s with
    col5 := fun j =>
      if 1 ≤ j ∧ j < s.ndat then
        shift_rec (c5a s s.ndat) (correction_factor s) (s.ndat - j)
      else c5a s j
    col6 := fun j =>
      if 1 ≤ j ∧ j < s.ndat then
        (shift_rec (c5a s s.ndat) (correction_factor s) (s.ndat - j)) + s.col4 j
      else s.col6 j }

/-- Embeds the center-line tail of shift_lines: col6a[j] = col6[j] - z for
    j = 0..ndat, where z = mid_value(which_sheet, 5) is the middle of col6. -/
def center_shift_out (s : Sheet) : Sheet :=
  { s with
    col6a := fun j =>
      if j ≤ s.ndat then s.col6 j - mid_value s.ndat s.col6 else s.col6a j }

/-- Embeds shift_lines of moody.c: the correction-factor pass, followed for
    the two center sheets (6 and 7) by the column 6a shift-out. -/
def shift_lines (which_sheet : ℕ) (s : Sheet) : Sheet :=
  if which_sheet = 6 ∨ which_sheet = 7 then center_shift_out (shift_core s)
  else shift_core s

/-- The eight worksheets ws[0]..ws[7] of moody.c: 0,1 the diagonals NW_SE and
    NE_SW, 2..5 the perimeter lines NE_NW, NE_SE, SE_SW, NW_SW, 6,7 the
    center lines E_W and N_S. -/
structure Plate where
  ws0 : Sheet
  ws1 : Sheet
  ws2 : Sheet
  ws3 : Sheet
  ws4 : Sheet
  ws5 : Sheet
  ws6 : Sheet
  ws7 : Sheet

/-- Access worksheet i of the plate (indices beyond 7 do not occur in the
    program's loops; they default to the last sheet). -/
def wsheet (p : Plate) : ℕ → Sheet
  | 0 => p.ws0
  | 1 => p.ws1
  | 2 => p.ws2
  | 3 => p.ws3
  | 4 => p.ws4
  | 5 => p.ws5
  | 6 => p.ws6
  | _ => p.ws7

/-- Apply an index-aware transformation to each of the eight worksheets. -/
def map_sheets (f : ℕ → Sheet → Sheet) (p : Plate) : Plate :=
  ⟨f 0 p.ws0, f 1 p.ws1, f 2 p.ws2, f 3 p.ws3, f 4 p.ws4, f 5 p.ws5, f 6 p.ws6, f 7 p.ws7⟩

/-- Single-cell store into column 5, embedding an assignment ws[i][4][j] = v. -/
def set5 (s : Sheet) (j : ℕ) (v : ℚ) : Sheet :=
  { s with col5 := Function.update s.col5 j v }

/-- Single-cell store into column 6, embedding an assignment ws[i][5][j] = v. -/
def set6 (s : Sheet) (j : ℕ) (v : ℚ) : Sheet :=
  { s with col6 := Function.update s.col6 j v }

/-- The plate after all eight files have been read: sheet i holds the parsed
    readings of file i. -/
def init_plate (rs : ℕ → List ℚ) : Plate :=
  ⟨init_sheet (rs 0), init_sheet (rs 1), init_sheet (rs 2), init_sheet (rs 3),
   init_sheet (rs 4), init_sheet (rs 5), init_sheet (rs 6), init_sheet (rs 7)⟩

/-- Embeds the loop of main calling first_four_columns on all eight sheets. -/
def build_columns (p : Plate) : Plate := map_sheets (fun _ s => first_four_columns s) p

/-- Embeds the loop of main calling diagonal_correction on sheets 0 and 1. -/
def solve_diagonals (p : Plate) : Plate :=
  { p with ws0 := diagonal_correction p.ws0, ws1 := diagonal_correction p.ws1 }

/-- Embeds the corner-copy block of main: the NE corner ws[1][5][0] into
    sheets 2,3 (col5[0] and col6[0]); the SW corner ws[1][5][N1] into the far
    ends of sheets 4,5; the NW corner ws[0][5][0] into the far end of sheet 2
    and the start of sheet 5; the SE corner ws[0][5][N0] into the far end of
    sheet 3 and the start of sheet 4.  Stores follow the program order, so a
    later store to the same cell wins. -/
def seed_perimeter (p : Plate) : Plate :=
  { p with
    ws2 := set6 (set6 (set5 p.ws2 0 (p.ws1.col6 0)) 0 (p.ws1.col6 0)) p.ws2.ndat (p.ws0.col6 0)
    ws3 := set6 (set6 (set5 p.ws3 0 (p.ws1.col6 0)) 0 (p.ws1.col6 0)) p.ws3.ndat
      (p.ws0.col6 p.ws0.ndat)
    ws4 := set6 (set5 (set6 p.ws4 p.ws4.ndat (p.ws1.col6 p.ws1.ndat)) 0
      (p.ws0.col6 p.ws0.ndat)) 0 (p.ws0.col6 p.ws0.ndat)
    ws5 := set6 (set5 (set6 p.ws5 p.ws5.ndat (p.ws1.col6 p.ws1.ndat)) 0
      (p.ws0.col6 0)) 0 (p.ws0.col6 0) }

/-- Embeds the loop of main calling shift_lines on the perimeter sheets 2..5. -/
def solve_perimeter (p : Plate) : Plate :=
  { p with ws2 := shift_lines 2 p.ws2, ws3 := shift_lines 3 p.ws3,
           ws4 := shift_lines 4 p.ws4, ws5 := shift_lines 5 p.ws5 }

/-- Embeds the center-line seeding of main: sheet 6 gets mid_value(3,5) at its
    start (col5[0] and col6[0]) and mid_value(5,5) at its far end; sheet 7
    gets mid_value(2,5) at its start and mid_value(4,5) at its far end. -/
def seed_center (p : Plate) : Plate :=
  { p with
    ws6 := set6 (set6 (set5 p.ws6 0 (mid_value p.ws3.ndat p.ws3.col6)) 0
      (mid_value p.ws3.ndat p.ws3.col6)) p.ws6.ndat (mid_value p.ws5.ndat p.ws5.col6)
    ws7 := set6 (set6 (set5 p.ws7 0 (mid_value p.ws2.ndat p.ws2.col6)) 0
      (mid_value p.ws2.ndat p.ws2.col6)) p.ws7.ndat (mid_value p.ws4.ndat p.ws4.col6) }

/-- Embeds the loop of main calling shift_lines on the center sheets 6 and 7. -/
def solve_center (p : Plate) : Plate :=
  { p with ws6 := shift_lines 6 p.ws6, ws7 := shift_lines 7 p.ws7 }

/-- The plate state after main's solving stages, before column 7 is derived:
    columns 1-4, then diagonals, corner propagation, perimeter shift, center
    seeding and center shift, in the program's order. -/
def solve_plate (rs : ℕ → List ℚ) : Plate :=
  solve_center (seed_center (solve_perimeter (seed_perimeter
    (solve_diagonals (build_columns (init_plate rs))))))

/-- The column scanned by return_low_and_high_point on sheet i: column 6a for
    the center sheets 6 and 7, column 6 otherwise. -/
def sel (p : Plate) (i j : ℕ) : ℚ :=
  if i = 6 ∨ i = 7 then (wsheet p i).col6a j else (wsheet p i).col6 j

/-- All scanned values of one sheet, stations 0..ndat. -/
def row_vals (p : Plate) (i : ℕ) : List ℚ :=
  (List.range ((wsheet p i).ndat + 1)).map (sel p i)

/-- All values visited by the scan loop of return_low_and_high_point, sheets
    0..7 in order. -/
def scan_vals (p : Plate) : List ℚ :=
  row_vals p 0 ++ row_vals p 1 ++ row_vals p 2 ++ row_vals p 3 ++
  row_vals p 4 ++ row_vals p 5 ++ row_vals p 6 ++ row_vals p 7

/-- Embeds the min accumulation of return_low_and_high_point: min starts at
    ws[0][5][0] and is folded over every scanned value. -/
def lowest (p : Plate) : ℚ := (scan_vals p).foldl min (p.ws0.col6 0)

/-- Embeds the column 7 and column 8 block of main: col7[j] = col6[j]-lowest
    (col6a[j]-lowest on the center sheets) for j = 0..ndat; foot spacing is
    scaled by 1000 (metric) or 100000 (imperial); then
    col8[j] = col7[j]*arcsec*foot_spacing. -/
def normalize (metric : Bool) (foot_spacing : ℚ) (p : Plate) : Plate :=
  map_sheets (fun i s =>
    { s with
      col7 := fun j =>
        if j ≤ s.ndat then (if i = 6 ∨ i = 7 then s.col6a j else s.col6 j) - lowest p
        else s.col7 j
      col8 := fun j =>
        if j ≤ s.ndat then
          ((if i = 6 ∨ i = 7 then s.col6a j else s.col6 j) - lowest p) * arcsec *
            (if metric then foot_spacing * 1000 else foot_spacing * 100000)
        else s.col8 j }) p

/-- Embeds the per-line error of do_moody_consistency_checks:
    mid_value(i,5)*arcsec*foot_spacing, i.e. the middle value of column 6 of a
    center sheet, converted with the (already scaled) foot spacing. -/
def moody_error (foot_spacing : ℚ) (s : Sheet) : ℚ :=
  mid_value s.ndat s.col6 * arcsec * foot_spacing

/-- Embeds the printwarning flag of do_moody_consistency_checks: in metric
    mode set when some center-line error magnitude exceeds 2.54 (microns);
    in imperial mode when it exceeds 10.0 (in 1e-5 inch, i.e. before the
    factor 10 applied only for display in micro-inches). -/
def moody_printwarning (metric : Bool) (foot_spacing : ℚ) (p : Plate) : Bool :=
  if metric then
    decide ((2.54 : ℚ) < |moody_error foot_spacing p.ws6|) ||
      decide ((2.54 : ℚ) < |moody_error foot_spacing p.ws7|)
  else
    decide ((10 : ℚ) < |moody_error foot_spacing p.ws6|) ||
      decide ((10 : ℚ) < |moody_error foot_spacing p.ws7|)

/-- Modelled from the claim's words, for comparison with moody_error: the
    measurement error computed from the middle value of column 6a instead of
    column 6. -/
def claimC4_error (foot_spacing : ℚ) (s : Sheet) : ℚ :=
  mid_value s.ndat s.col6a * arcsec * foot_spacing

/-- Modelled from the claim's words, for comparison with moody_printwarning:
    the warning criterion evaluated on the column 6a errors. -/
def claimC4_warning (metric : Bool) (foot_spacing : ℚ) (p : Plate) : Bool :=
  if metric then
    decide ((2.54 : ℚ) < |claimC4_error foot_spacing p.ws6|) ||
      decide ((2.54 : ℚ) < |claimC4_error foot_spacing p.ws7|)
  else
    decide ((10 : ℚ) < |claimC4_error foot_spacing p.ws6|) ||
      decide ((10 : ℚ) < |claimC4_error foot_spacing p.ws7|)

/-- A concrete worksheet used to instantiate universally quantified theorems:
    columns 1-4 built from the readings 0, 10, 20 (so ndat = 3 and
    col4 = 0, 0, 10, 30). -/
def sEx : Sheet := first_four_columns (init_sheet [0, 10, 20])

/-- Concrete readings for a full run: every line has three readings; all are
    level except the E_W center line, whose tilt readings are inconsistent
    with the (flat) perimeter, producing a visible measurement error. -/
def exReadings : ℕ → List ℚ
  | 6 => [0, 30, 30]
  | _ => [0, 0, 0]

/-- The solved plate of the concrete full run. -/
def exPlate : Plate := solve_plate exReadings

/-- View of main between diagonal solving and corner propagation. -/
def diag_stage (rs : ℕ → List ℚ) : Plate := solve_diagonals (build_columns (init_plate rs))

/-- View of main after the perimeter lines have been seeded and solved. -/
def perim_stage (rs : ℕ → List ℚ) : Plate := solve_perimeter (seed_perimeter (diag_stage rs))

/- ------------------------------------------------------------------ -/
/- Helper lemmas about the embedded operations.                        -/
/- ------------------------------------------------------------------ -/

lemma shift_lines_ndat (w : ℕ) (s : Sheet) : (shift_lines w s).ndat = s.ndat := by
  unfold shift_lines
  split <;> rfl

lemma shift_lines_col5 (w : ℕ) (s : Sheet) : (shift_lines w s).col5 = (shift_core s).col5 := by
  unfold shift_lines
  split <;> rfl

lemma shift_lines_col6 (w : ℕ) (s : Sheet) : (shift_lines w s).col6 = (shift_core s).col6 := by
  unfold shift_lines
  split <;> rfl

lemma shift_lines_col4 (w : ℕ) (s : Sheet) : (shift_lines w s).col4 = s.col4 := by
  unfold shift_lines
  split <;> rfl

lemma shift_core_col6_zero (s : Sheet) : (shift_core s).col6 0 = s.col6 0 := by
  simp [shift_core]

lemma shift_core_col6_ndat (s : Sheet) : (shift_core s).col6 s.ndat = s.col6 s.ndat := by
  simp [shift_core]

lemma shift_lines_col6_zero (w : ℕ) (s : Sheet) : (shift_lines w s).col6 0 = s.col6 0 := by
  rw [shift_lines_col6]
  exact shift_core_col6_zero s

lemma shift_lines_col6_ndat (w : ℕ) (s : Sheet) :
    (shift_lines w s).col6 s.ndat = s.col6 s.ndat := by
  rw [shift_lines_col6]
  exact shift_core_col6_ndat s

lemma shift_core_col5_zero (s : Sheet) (h : 0 < s.ndat) : (shift_core s).col5 0 = s.col5 0 := by
  have h0 : (0 : ℕ) ≠ s.ndat := by omega
  simp [shift_core, c5a, h0]

lemma shift_core_col5_ndat (s : Sheet) : (shift_core s).col5 s.ndat = c5N s := by
  simp [shift_core, c5a]

lemma shift_core_col5_mid (s : Sheet) (j : ℕ) (h1 : 1 ≤ j) (h2 : j < s.ndat) :
    (shift_core s).col5 j = shift_rec (c5N s) (correction_factor s) (s.ndat - j) := by
  simp [shift_core, c5a, h1, h2]

lemma shift_core_col6_mid (s : Sheet) (j : ℕ) (h1 : 1 ≤ j) (h2 : j < s.ndat) :
    (shift_core s).col6 j =
      shift_rec (c5N s) (correction_factor s) (s.ndat - j) + s.col4 j := by
  simp [shift_core, c5a, h1, h2]

lemma correction_factor_eq (s : Sheet) (h : 0 < s.ndat) :
    correction_factor s = (s.col5 0 - c5N s) / (s.ndat : ℚ) := by
  have h0 : (0 : ℕ) ≠ s.ndat := by omega
  simp [correction_factor, c5a, h0]

lemma ffc_col4_zero (s : Sheet) : (first_four_columns s).col4 0 = 0 := by
  simp [first_four_columns, sum_col4]

lemma diag_ndat (s : Sheet) : (diagonal_correction s).ndat = s.ndat := rfl

lemma diag_col6_eval (s : Sheet) (j : ℕ) (hj : j ≤ s.ndat) :
    (diagonal_correction s).col6 j =
      s.col4 j + ((-1 * s.col4 s.ndat / (s.ndat : ℚ)) * (j : ℚ) +
        ((1 / 2) * s.col4 s.ndat - mid_value s.ndat s.col4)) := by
  simp [diagonal_correction, hj]

lemma diag_endpoints (s : Sheet) (h0 : s.col4 0 = 0) :
    (diagonal_correction s).col6 0 =
      (1 / 2) * s.col4 s.ndat - mid_value s.ndat s.col4 ∧
    (diagonal_correction s).col6 s.ndat =
      (1 / 2) * s.col4 s.ndat - mid_value s.ndat s.col4 := by
  constructor
  · rw [diag_col6_eval s 0 (Nat.zero_le _), h0]
    ring
  · rw [diag_col6_eval s s.ndat le_rfl]
    rcases Nat.eq_zero_or_pos s.ndat with hN | hN
    · rw [hN, h0]
      push_cast
      ring
    · have hNQ : (s.ndat : ℚ) ≠ 0 := Nat.cast_ne_zero.mpr (by omega)
      field_simp
      ring

/- ------------------------------------------------------------------ -/
/- Claim theorems.                                                     -/
/- ------------------------------------------------------------------ -/

/-- Claim C1: for every line run through the Perimeter/Center Shifter, the
    shifted sheet satisfies col5[N] = col6[N] - col4[N] (computed from the
    pre-shift endpoint values), and every interior station j in 1..N-1 has
    col5[j] = col5[j+1] + (col5[0]-col5[N])/N and col6[j] = col5[j]+col4[j]. -/
theorem claimC1 (w : ℕ) (s : Sheet) (j : ℕ) (h1 : 1 ≤ j) (h2 : j < s.ndat) :
    (shift_lines w s).col5 s.ndat = s.col6 s.ndat - s.col4 s.ndat ∧
    (shift_lines w s).col5 j = (shift_lines w s).col5 (j + 1) +
      ((shift_lines w s).col5 0 - (shift_lines w s).col5 s.ndat) / (s.ndat : ℚ) ∧
    (shift_lines w s).col6 j = (shift_lines w s).col5 j + (shift_lines w s).col4 j := by
  have hN : 0 < s.ndat := by omega
  have hc50 : (shift_lines w s).col5 0 = s.col5 0 := by
    rw [shift_lines_col5]
    exact shift_core_col5_zero s hN
  have hc5N : (shift_lines w s).col5 s.ndat = c5N s := by
    rw [shift_lines_col5]
    exact shift_core_col5_ndat s
  refine ⟨hc5N, ?_, ?_⟩
  · rw [hc50, hc5N, ← correction_factor_eq s hN]
    rw [shift_lines_col5, shift_core_col5_mid s j h1 h2]
    rcases Nat.lt_or_ge (j + 1) s.ndat with hlt | hge
    · rw [shift_core_col5_mid s (j + 1) (by omega) hlt]
      have hsub : s.ndat - j = (s.ndat - (j + 1)) + 1 := by omega
      rw [hsub]
      rfl
    · have hje : j + 1 = s.ndat := by omega
      rw [hje, shift_core_col5_ndat]
      have hsub : s.ndat - j = 1 := by omega
      rw [hsub]
      rfl
  · rw [shift_lines_col6, shift_lines_col5, shift_lines_col4,
      shift_core_col6_mid s j h1 h2, shift_core_col5_mid s j h1 h2]

/-- Witness for claim C1 at the concrete sheet sEx (N = 3), station j = 2. -/
theorem claimC1_witness :
    (shift_lines 2 sEx).col5 sEx.ndat = sEx.col6 sEx.ndat - sEx.col4 sEx.ndat ∧
    (shift_lines 2 sEx).col5 2 = (shift_lines 2 sEx).col5 (2 + 1) +
      ((shift_lines 2 sEx).col5 0 - (shift_lines 2 sEx).col5 sEx.ndat) / (sEx.ndat : ℚ) ∧
    (shift_lines 2 sEx).col6 2 = (shift_lines 2 sEx).col5 2 + (shift_lines 2 sEx).col4 2 :=
  claimC1 2 sEx 2 (by decide) (by decide)

/-- Claim C2: the Diagonal Reconciler gives every station j in 0..N
    col5[j] = a*j + b with a = -col4[N]/N and b = 0.5*col4[N] - middle(col4)
    (middle by the Middle-Value Operator), and col6[j] = col4[j] + col5[j]. -/
theorem claimC2 (s : Sheet) (j : ℕ) (hj : j ≤ s.ndat) :
    (diagonal_correction s).col5 j =
      (-(s.col4 s.ndat) / (s.ndat : ℚ)) * (j : ℚ) +
        ((1 / 2) * s.col4 s.ndat - mid_value s.ndat s.col4) ∧
    (diagonal_correction s).col6 j = s.col4 j + (diagonal_correction s).col5 j := by
  constructor
  · simp [diagonal_correction, hj]
  · simp [diagonal_correction, hj]

/-- Witness for claim C2 at the concrete sheet sEx (N = 3), station j = 2. -/
theorem claimC2_witness :
    (diagonal_correction sEx).col5 2 =
      (-(sEx.col4 sEx.ndat) / (sEx.ndat : ℚ)) * (2 : ℚ) +
        ((1 / 2) * sEx.col4 sEx.ndat - mid_value sEx.ndat sEx.col4) ∧
    (diagonal_correction sEx).col6 2 = sEx.col4 2 + (diagonal_correction sEx).col5 2 := by
  have h := claimC2 sEx 2 (by decide)
  exact_mod_cast h

/-- Claim C5 counterexample: with readings 10, 20, 30 the Column Builder sets
    col3[2] = col2[2] - col2[1] = 10, not col2[2] - col2[0] = 20, because the
    first reading is stored at station index 1 and col2[0] stays 0. -/
theorem claimC5_counterexample :
    (first_four_columns (init_sheet [10, 20, 30])).col3 2 ≠
      (init_sheet [10, 20, 30]).col2 2 - (init_sheet [10, 20, 30]).col2 0 := by
  norm_num [first_four_columns, init_sheet, emptySheet]

/-- Claim C5 as amended: for j in 1..N the Column Builder sets
    col3[j] = col2[j] - col2[1], where col2[1] holds the line's first
    reading (readings occupy col2 indices 1..N; col2[0] and col3[0] are
    never written). -/
theorem claimC5_amended (rs : List ℚ) (j : ℕ) (h1 : 1 ≤ j) (h2 : j ≤ rs.length) :
    (first_four_columns (init_sheet rs)).col3 j =
      (init_sheet rs).col2 j - (init_sheet rs).col2 1 ∧
    (init_sheet rs).col2 1 = rs.getD 0 0 := by
  constructor
  · have hnd : (init_sheet rs).ndat = rs.length := rfl
    simp [first_four_columns, hnd, h1, h2]
  · simp [init_sheet]

/-- Witness for the amended claim C5 at readings 10, 20, 30 and j = 2. -/
theorem claimC5_amended_witness :
    (first_four_columns (init_sheet [10, 20, 30])).col3 2 =
      (init_sheet [10, 20, 30]).col2 2 - (init_sheet [10, 20, 30]).col2 1 ∧
    (init_sheet [10, 20, 30]).col2 1 = ([10, 20, 30] : List ℚ).getD 0 0 :=
  claimC5_amended [10, 20, 30] 2 (by decide) (by decide)

/-- Claim C7: after shift_lines runs on a center sheet (6 or 7), the middle
    value of the error-shift-out column 6a is exactly zero. -/
theorem claimC7 (which_sheet : ℕ) (s : Sheet) (h : which_sheet = 6 ∨ which_sheet = 7) :
    mid_value (shift_lines which_sheet s).ndat (shift_lines which_sheet s).col6a = 0 := by
  rw [shift_lines, if_pos h]
  generalize shift_core s = t
  show mid_value (center_shift_out t).ndat (center_shift_out t).col6a = 0
  have hnd : (center_shift_out t).ndat = t.ndat := rfl
  rw [hnd]
  by_cases hpar : t.ndat % 2 = 0
  · have hle : t.ndat / 2 ≤ t.ndat := Nat.div_le_self _ _
    simp [mid_value, center_shift_out, hpar, hle]
  · have h1 : (t.ndat - 1) / 2 ≤ t.ndat := by omega
    have h2 : (t.ndat + 1) / 2 ≤ t.ndat := by omega
    simp [mid_value, center_shift_out, hpar, h1, h2]
    ring

/-- Witness for claim C7 on the concrete sheet sEx as center sheet 6. -/
theorem claimC7_witness :
    mid_value (shift_lines 6 sEx).ndat (shift_lines 6 sEx).col6a = 0 :=
  claimC7 6 sEx (Or.inl rfl)

/-- Claim C9 (code behaviour at the boundary): read_data aborts on a file of
    exactly MAX_STATIONS-2 = 126 readings, accepts 125 and 3 readings, and
    aborts below 3 readings — refuting the documented bound of 126. -/
theorem claimC9_boundary :
    read_data (List.replicate 126 (0 : ℚ)) = ReadResult.tooMany ∧
    read_data (List.replicate 125 (0 : ℚ)) = ReadResult.ok 125 ∧
    read_data (List.replicate 3 (0 : ℚ)) = ReadResult.ok 3 ∧
    read_data (List.replicate 2 (0 : ℚ)) = ReadResult.tooFew := by
  decide

/-- Claim C10: for any raw readings, after first_four_columns and
    diagonal_correction both endpoints of a diagonal carry the same corrected
    value b = 0.5*col4[N] - middle(col4). -/
theorem claimC10 (rs : List ℚ) :
    (diagonal_correction (first_four_columns (init_sheet rs))).col6 0 =
      (1 / 2) * (first_four_columns (init_sheet rs)).col4
          (first_four_columns (init_sheet rs)).ndat -
        mid_value (first_four_columns (init_sheet rs)).ndat
          (first_four_columns (init_sheet rs)).col4 ∧
    (diagonal_correction (first_four_columns (init_sheet rs))).col6
        (diagonal_correction (first_four_columns (init_sheet rs))).ndat =
      (1 / 2) * (first_four_columns (init_sheet rs)).col4
          (first_four_columns (init_sheet rs)).ndat -
        mid_value (first_four_columns (init_sheet rs)).ndat
          (first_four_columns (init_sheet rs)).col4 := by
  have h := diag_endpoints (first_four_columns (init_sheet rs))
    (ffc_col4_zero (init_sheet rs))
  exact ⟨h.1, h.2⟩

lemma mid_value_even (n : ℕ) (c : ℕ → ℚ) (h : n % 2 = 0) : mid_value n c = c (n / 2) := by
  simp [mid_value, h]

lemma mid_value_odd (n : ℕ) (c : ℕ → ℚ) (h : n % 2 = 1) :
    mid_value n c = (1 / 2) * (c ((n - 1) / 2) + c ((n + 1) / 2)) := by
  simp [mid_value, h]

/-- Claim C8 counterexample: on the diagonal built from readings 0, 10, 20
    the two corrected endpoints average to 10 while the middle value of
    col6 is 0, so the endpoints are not symmetric about middle(col6). -/
theorem claimC8_counterexample :
    ((diagonal_correction sEx).col6 0 +
        (diagonal_correction sEx).col6 (diagonal_correction sEx).ndat) / 2 ≠
      mid_value (diagonal_correction sEx).ndat (diagonal_correction sEx).col6 := by
  norm_num [sEx, diagonal_correction, first_four_columns, init_sheet, emptySheet,
    sum_col4, mid_value]

/-- Claim C8 as amended: after the Diagonal Reconciler runs on a line with
    col4[0] = 0 and N >= 1, the middle value of col6 is exactly 0 and the two
    endpoints average to b = 0.5*col4[N] - middle(col4); they are symmetric
    about b, which equals middle(col6) only when b = 0. -/
theorem claimC8_amended (s : Sheet) (h0 : s.col4 0 = 0) (hN : 0 < s.ndat) :
    mid_value s.ndat (diagonal_correction s).col6 = 0 ∧
    ((diagonal_correction s).col6 0 + (diagonal_correction s).col6 s.ndat) / 2 =
      (1 / 2) * s.col4 s.ndat - mid_value s.ndat s.col4 := by
  have hNQ : (s.ndat : ℚ) ≠ 0 := Nat.cast_ne_zero.mpr (by omega)
  constructor
  · by_cases hpar : s.ndat % 2 = 0
    · have hle : s.ndat / 2 ≤ s.ndat := Nat.div_le_self _ _
      have h2 : s.ndat / 2 * 2 = s.ndat := by omega
      have hx : ((s.ndat / 2 : ℕ) : ℚ) * 2 = (s.ndat : ℚ) := by exact_mod_cast h2
      have hxne : ((s.ndat / 2 : ℕ) : ℚ) ≠ 0 := Nat.cast_ne_zero.mpr (by omega)
      rw [mid_value_even s.ndat _ hpar, diag_col6_eval s _ hle,
        mid_value_even s.ndat s.col4 hpar, ← hx]
      field_simp
      ring
    · have hodd : s.ndat % 2 = 1 := by omega
      have hl : (s.ndat - 1) / 2 ≤ s.ndat := by omega
      have hr : (s.ndat + 1) / 2 ≤ s.ndat := by omega
      have hx : (s.ndat - 1) / 2 + (s.ndat + 1) / 2 = s.ndat := by omega
      have hxq : (((s.ndat - 1) / 2 : ℕ) : ℚ) + (((s.ndat + 1) / 2 : ℕ) : ℚ) =
          (s.ndat : ℚ) := by exact_mod_cast hx
      have hne : (((s.ndat - 1) / 2 : ℕ) : ℚ) + (((s.ndat + 1) / 2 : ℕ) : ℚ) ≠ 0 := by
        rw [hxq]
        exact hNQ
      rw [mid_value_odd s.ndat _ hodd, diag_col6_eval s _ hl, diag_col6_eval s _ hr,
        mid_value_odd s.ndat s.col4 hodd, ← hxq]
      field_simp
      ring
  · obtain ⟨he0, heN⟩ := diag_endpoints s h0
    rw [he0, heN]
    ring

/-- Witness for the amended claim C8 at the concrete diagonal sheet sEx. -/
theorem claimC8_amended_witness :
    mid_value sEx.ndat (diagonal_correction sEx).col6 = 0 ∧
    ((diagonal_correction sEx).col6 0 + (diagonal_correction sEx).col6 sEx.ndat) / 2 =
      (1 / 2) * sEx.col4 sEx.ndat - mid_value sEx.ndat sEx.col4 :=
  claimC8_amended sEx
    (by norm_num [sEx, first_four_columns, init_sheet, emptySheet, sum_col4])
    (by decide)

/-- Claim C4 counterexample: on the concrete solved plate exPlate (metric,
    scaled foot spacing 66*1000) the Consistency Checker's error for the E_W
    center line differs from middle(col6a)*arcsec*foot_spacing, and the code
    prints the out-of-tolerance warning while the claim's criterion (built on
    col6a, whose middle value is 0) says it must not be printed. -/
theorem claimC4_counterexample :
    moody_error (66 * 1000) exPlate.ws6 ≠ claimC4_error (66 * 1000) exPlate.ws6 ∧
    moody_printwarning true (66 * 1000) exPlate = true ∧
    claimC4_warning true (66 * 1000) exPlate = false := by
  norm_num [moody_error, claimC4_error, moody_printwarning, claimC4_warning, arcsec,
    exPlate, exReadings, solve_plate, solve_center, seed_center, solve_perimeter,
    seed_perimeter, solve_diagonals, build_columns, init_plate, init_sheet, emptySheet,
    map_sheets, set5, set6, wsheet, shift_lines, center_shift_out, shift_core, shift_rec,
    c5a, c5N, correction_factor, diagonal_correction, first_four_columns, sum_col4,
    mid_value, Function.update_apply, List.getD, abs]

/-- Claim C4 as amended: the Consistency Checker's per-center-line error is
    middle(col6) * arcsec * foot_spacing (with the already scaled foot
    spacing), not middle(col6a); the warning is printed iff some center
    line's absolute error exceeds 2.54 (microns, metric) or 10.0 (units of
    1e-5 inch, imperial, compared before the display factor 10). -/
theorem claimC4_amended (metric : Bool) (fs2 : ℚ) (p : Plate) :
    moody_error fs2 p.ws6 = mid_value p.ws6.ndat p.ws6.col6 * arcsec * fs2 ∧
    moody_error fs2 p.ws7 = mid_value p.ws7.ndat p.ws7.col6 * arcsec * fs2 ∧
    (moody_printwarning metric fs2 p = true ↔
      if metric then
        (2.54 : ℚ) < |moody_error fs2 p.ws6| ∨ (2.54 : ℚ) < |moody_error fs2 p.ws7|
      else
        (10 : ℚ) < |moody_error fs2 p.ws6| ∨ (10 : ℚ) < |moody_error fs2 p.ws7|) := by
  refine ⟨rfl, rfl, ?_⟩
  cases metric <;> simp [moody_printwarning]

lemma wsheet_map_sheets (f : ℕ → Sheet → Sheet) (p : Plate) (i : ℕ) (hi : i < 8) :
    wsheet (map_sheets f p) i = f i (wsheet p i) := by
  interval_cases i <;> rfl

lemma foldl_min_le_init (l : List ℚ) (a : ℚ) : l.foldl min a ≤ a := by
  induction l generalizing a with
  | nil => exact le_refl a
  | cons x t ih => exact le_trans (ih (min a x)) (min_le_left a x)

lemma foldl_min_le_mem (l : List ℚ) : ∀ a x, x ∈ l → l.foldl min a ≤ x := by
  induction l with
  | nil =>
      intro a x hx
      cases hx
  | cons y t ih =>
      intro a x hx
      rcases List.mem_cons.mp hx with h | h
      · subst h
        exact le_trans (foldl_min_le_init t (min a x)) (min_le_right a x)
      · exact ih (min a y) x h

lemma foldl_min_choice (l : List ℚ) : ∀ a, l.foldl min a = a ∨ l.foldl min a ∈ l := by
  induction l with
  | nil =>
      intro a
      exact Or.inl rfl
  | cons y t ih =>
      intro a
      rcases ih (min a y) with h | h
      · rcases min_choice a y with hm | hm
        · exact Or.inl (by rw [List.foldl_cons, h, hm])
        · exact Or.inr (by rw [List.foldl_cons, h, hm]; exact List.mem_cons_self y t)
      · exact Or.inr (List.mem_cons_of_mem y h)

lemma sel_mem_scan_vals (p : Plate) (i j : ℕ) (hi : i < 8) (hj : j ≤ (wsheet p i).ndat) :
    sel p i j ∈ scan_vals p := by
  have hrow : sel p i j ∈ row_vals p i :=
    List.mem_map.mpr ⟨j, List.mem_range.mpr (by omega), rfl⟩
  unfold scan_vals
  interval_cases i <;> simp only [List.mem_append] <;> tauto

lemma mem_scan_vals (p : Plate) (x : ℚ) (hx : x ∈ scan_vals p) :
    ∃ i j, i < 8 ∧ j ≤ (wsheet p i).ndat ∧ x = sel p i j := by
  have hrow : ∀ i, x ∈ row_vals p i →
      ∃ j, j ≤ (wsheet p i).ndat ∧ x = sel p i j := by
    intro i hi
    obtain ⟨j, hj, he⟩ := List.mem_map.mp hi
    exact ⟨j, Nat.lt_succ_iff.mp (List.mem_range.mp hj), he.symm⟩
  unfold scan_vals at hx
  rcases List.mem_append.mp hx with h | h
  · rcases List.mem_append.mp h with h | h
    · rcases List.mem_append.mp h with h | h
      · rcases List.mem_append.mp h with h | h
        · rcases List.mem_append.mp h with h | h
          · rcases List.mem_append.mp h with h | h
            · rcases List.mem_append.mp h with h | h
              · obtain ⟨j, hj, he⟩ := hrow 0 h
                exact ⟨0, j, by omega, hj, he⟩
              · obtain ⟨j, hj, he⟩ := hrow 1 h
                exact ⟨1, j, by omega, hj, he⟩
            · obtain ⟨j, hj, he⟩ := hrow 2 h
              exact ⟨2, j, by omega, hj, he⟩
          · obtain ⟨j, hj, he⟩ := hrow 3 h
            exact ⟨3, j, by omega, hj, he⟩
        · obtain ⟨j, hj, he⟩ := hrow 4 h
          exact ⟨4, j, by omega, hj, he⟩
      · obtain ⟨j, hj, he⟩ := hrow 5 h
        exact ⟨5, j, by omega, hj, he⟩
    · obtain ⟨j, hj, he⟩ := hrow 6 h
      exact ⟨6, j, by omega, hj, he⟩
  · obtain ⟨j, hj, he⟩ := hrow 7 h
    exact ⟨7, j, by omega, hj, he⟩

lemma lowest_le (p : Plate) (i j : ℕ) (hi : i < 8) (hj : j ≤ (wsheet p i).ndat) :
    lowest p ≤ sel p i j :=
  foldl_min_le_mem (scan_vals p) (p.ws0.col6 0) (sel p i j)
    (sel_mem_scan_vals p i j hi hj)

lemma lowest_attained (p : Plate) :
    ∃ i j, i < 8 ∧ j ≤ (wsheet p i).ndat ∧ lowest p = sel p i j := by
  rcases foldl_min_choice (scan_vals p) (p.ws0.col6 0) with h | h
  · refine ⟨0, 0, by omega, Nat.zero_le _, ?_⟩
    unfold lowest
    rw [h]
    rfl
  · exact mem_scan_vals p _ h

/-- Claim C3: after the Global Normalizer runs, every station j of every line
    i has col7[j] = (col6[j] or, on center lines, col6a[j]) - lowest, where
    lowest is the global minimum of those columns over all stations of all
    eight lines (a lower bound that is attained), and
    col8[j] = col7[j] * arcsec * foot_spacing with foot spacing scaled by
    1000 in metric mode and by 100000 in imperial mode. -/
theorem claimC3 (metric : Bool) (fs : ℚ) (p : Plate) (i j iq jq : ℕ)
    (hi : i < 8) (hj : j ≤ (wsheet p i).ndat)
    (hiq : iq < 8) (hjq : jq ≤ (wsheet p iq).ndat) :
    (wsheet (normalize metric fs p) i).col7 j = sel p i j - lowest p ∧
    (wsheet (normalize metric fs p) i).col8 j =
      (wsheet (normalize metric fs p) i).col7 j * arcsec *
        (if metric then fs * 1000 else fs * 100000) ∧
    lowest p ≤ sel p iq jq ∧
    ∃ i0 j0, i0 < 8 ∧ j0 ≤ (wsheet p i0).ndat ∧ lowest p = sel p i0 j0 := by
  refine ⟨?_, ?_, lowest_le p iq jq hiq hjq, lowest_attained p⟩
  · unfold normalize
    rw [wsheet_map_sheets _ p i hi]
    dsimp only
    rw [if_pos hj]
    rfl
  · unfold normalize
    rw [wsheet_map_sheets _ p i hi]
    dsimp only
    rw [if_pos hj, if_pos hj]

/-- Witness for claim C3 on the concrete solved plate exPlate, line 0,
    station 0, in metric mode with foot spacing 66. -/
theorem claimC3_witness :
    (wsheet (normalize true 66 exPlate) 0).col7 0 = sel exPlate 0 0 - lowest exPlate ∧
    (wsheet (normalize true 66 exPlate) 0).col8 0 =
      (wsheet (normalize true 66 exPlate) 0).col7 0 * arcsec *
        (if true then (66 : ℚ) * 1000 else (66 : ℚ) * 100000) ∧
    lowest exPlate ≤ sel exPlate 0 0 ∧
    ∃ i0 j0, i0 < 8 ∧ j0 ≤ (wsheet exPlate i0).ndat ∧
      lowest exPlate = sel exPlate i0 j0 :=
  claimC3 true 66 exPlate 0 0 0 0 (by omega) (Nat.zero_le _) (by omega) (Nat.zero_le _)

lemma upd_oz_at_zero (f : ℕ → ℚ) (n : ℕ) (a b : ℚ) (hn : (0 : ℕ) ≠ n) :
    Function.update (Function.update f 0 a) n b 0 = a := by
  rw [Function.update_noteq hn, Function.update_same]

lemma upd_oz_at_n (f : ℕ → ℚ) (n : ℕ) (a b : ℚ) :
    Function.update (Function.update f 0 a) n b n = b := by
  rw [Function.update_same]

lemma upd_no_at_zero (f : ℕ → ℚ) (n : ℕ) (a b : ℚ) :
    Function.update (Function.update f n a) 0 b 0 = b := by
  rw [Function.update_same]

lemma upd_no_at_n (f : ℕ → ℚ) (n : ℕ) (a b : ℚ) (hn : n ≠ 0) :
    Function.update (Function.update f n a) 0 b n = a := by
  rw [Function.update_noteq hn, Function.update_same]

/-- Claim C6: shift_lines never writes col6[0] or col6[ndat] (frame part,
    stated for every sheet), so after the perimeter and center lines are
    solved, each line's col6[0] and col6[N] still hold exactly the corner or
    midpoint values seeded by the Corner Propagator: the perimeter sheets
    keep the diagonal corner values and the center sheets keep the perimeter
    middle values. -/
theorem claimC6 (w : ℕ) (s : Sheet) (rs : ℕ → List ℚ)
    (hlen : 3 ≤ (rs 0).length ∧ 3 ≤ (rs 1).length ∧ 3 ≤ (rs 2).length ∧
      3 ≤ (rs 3).length ∧ 3 ≤ (rs 4).length ∧ 3 ≤ (rs 5).length ∧
      3 ≤ (rs 6).length ∧ 3 ≤ (rs 7).length) :
    ((shift_lines w s).col6 0 = s.col6 0 ∧
      (shift_lines w s).col6 s.ndat = s.col6 s.ndat) ∧
    ((solve_plate rs).ws2.col6 0 = (diag_stage rs).ws1.col6 0 ∧
      (solve_plate rs).ws2.col6 (solve_plate rs).ws2.ndat = (diag_stage rs).ws0.col6 0) ∧
    ((solve_plate rs).ws3.col6 0 = (diag_stage rs).ws1.col6 0 ∧
      (solve_plate rs).ws3.col6 (solve_plate rs).ws3.ndat =
        (diag_stage rs).ws0.col6 (diag_stage rs).ws0.ndat) ∧
    ((solve_plate rs).ws4.col6 0 = (diag_stage rs).ws0.col6 (diag_stage rs).ws0.ndat ∧
      (solve_plate rs).ws4.col6 (solve_plate rs).ws4.ndat =
        (diag_stage rs).ws1.col6 (diag_stage rs).ws1.ndat) ∧
    ((solve_plate rs).ws5.col6 0 = (diag_stage rs).ws0.col6 0 ∧
      (solve_plate rs).ws5.col6 (solve_plate rs).ws5.ndat =
        (diag_stage rs).ws1.col6 (diag_stage rs).ws1.ndat) ∧
    ((solve_plate rs).ws6.col6 0 =
        mid_value (perim_stage rs).ws3.ndat (perim_stage rs).ws3.col6 ∧
      (solve_plate rs).ws6.col6 (solve_plate rs).ws6.ndat =
        mid_value (perim_stage rs).ws5.ndat (perim_stage rs).ws5.col6) ∧
    ((solve_plate rs).ws7.col6 0 =
        mid_value (perim_stage rs).ws2.ndat (perim_stage rs).ws2.col6 ∧
      (solve_plate rs).ws7.col6 (solve_plate rs).ws7.ndat =
        mid_value (perim_stage rs).ws4.ndat (perim_stage rs).ws4.col6) := by
  obtain ⟨hl0, hl1, hl2, hl3, hl4, hl5, hl6, hl7⟩ := hlen
  have hd2 : (diag_stage rs).ws2.ndat = (rs 2).length := rfl
  have hd3 : (diag_stage rs).ws3.ndat = (rs 3).length := rfl
  have hd4 : (diag_stage rs).ws4.ndat = (rs 4).length := rfl
  have hd5 : (diag_stage rs).ws5.ndat = (rs 5).length := rfl
  have hp6 : (perim_stage rs).ws6.ndat = (rs 6).length := rfl
  have hp7 : (perim_stage rs).ws7.ndat = (rs 7).length := rfl
  have e2 : (solve_plate rs).ws2 = shift_lines 2 (seed_perimeter (diag_stage rs)).ws2 := rfl
  have e3 : (solve_plate rs).ws3 = shift_lines 3 (seed_perimeter (diag_stage rs)).ws3 := rfl
  have e4 : (solve_plate rs).ws4 = shift_lines 4 (seed_perimeter (diag_stage rs)).ws4 := rfl
  have e5 : (solve_plate rs).ws5 = shift_lines 5 (seed_perimeter (diag_stage rs)).ws5 := rfl
  have e6 : (solve_plate rs).ws6 = shift_lines 6 (seed_center (perim_stage rs)).ws6 := rfl
  have e7 : (solve_plate rs).ws7 = shift_lines 7 (seed_center (perim_stage rs)).ws7 := rfl
  have c2 : (seed_perimeter (diag_stage rs)).ws2.col6 =
      Function.update (Function.update (diag_stage rs).ws2.col6 0
        ((diag_stage rs).ws1.col6 0)) ((diag_stage rs).ws2.ndat)
        ((diag_stage rs).ws0.col6 0) := rfl
  have c3 : (seed_perimeter (diag_stage rs)).ws3.col6 =
      Function.update (Function.update (diag_stage rs).ws3.col6 0
        ((diag_stage rs).ws1.col6 0)) ((diag_stage rs).ws3.ndat)
        ((diag_stage rs).ws0.col6 (diag_stage rs).ws0.ndat) := rfl
  have c4 : (seed_perimeter (diag_stage rs)).ws4.col6 =
      Function.update (Function.update (diag_stage rs).ws4.col6
        ((diag_stage rs).ws4.ndat) ((diag_stage rs).ws1.col6 (diag_stage rs).ws1.ndat)) 0
        ((diag_stage rs).ws0.col6 (diag_stage rs).ws0.ndat) := rfl
  have c5 : (seed_perimeter (diag_stage rs)).ws5.col6 =
      Function.update (Function.update (diag_stage rs).ws5.col6
        ((diag_stage rs).ws5.ndat) ((diag_stage rs).ws1.col6 (diag_stage rs).ws1.ndat)) 0
        ((diag_stage rs).ws0.col6 0) := rfl
  have c6 : (seed_center (perim_stage rs)).ws6.col6 =
      Function.update (Function.update (perim_stage rs).ws6.col6 0
        (mid_value (perim_stage rs).ws3.ndat (perim_stage rs).ws3.col6))
        ((perim_stage rs).ws6.ndat)
        (mid_value (perim_stage rs).ws5.ndat (perim_stage rs).ws5.col6) := rfl
  have c7 : (seed_center (perim_stage rs)).ws7.col6 =
      Function.update (Function.update (perim_stage rs).ws7.col6 0
        (mid_value (perim_stage rs).ws2.ndat (perim_stage rs).ws2.col6))
        ((perim_stage rs).ws7.ndat)
        (mid_value (perim_stage rs).ws4.ndat (perim_stage rs).ws4.col6) := rfl
  have n2 : (seed_perimeter (diag_stage rs)).ws2.ndat = (diag_stage rs).ws2.ndat := rfl
  have n3 : (seed_perimeter (diag_stage rs)).ws3.ndat = (diag_stage rs).ws3.ndat := rfl
  have n4 : (seed_perimeter (diag_stage rs)).ws4.ndat = (diag_stage rs).ws4.ndat := rfl
  have n5 : (seed_perimeter (diag_stage rs)).ws5.ndat = (diag_stage rs).ws5.ndat := rfl
  have n6 : (seed_center (perim_stage rs)).ws6.ndat = (perim_stage rs).ws6.ndat := rfl
  have n7 : (seed_center (perim_stage rs)).ws7.ndat = (perim_stage rs).ws7.ndat := rfl
  refine ⟨⟨shift_lines_col6_zero w s, shift_lines_col6_ndat w s⟩,
    ⟨?_, ?_⟩, ⟨?_, ?_⟩, ⟨?_, ?_⟩, ⟨?_, ?_⟩, ⟨?_, ?_⟩, ⟨?_, ?_⟩⟩
  · rw [e2, shift_lines_col6_zero, c2]
    exact upd_oz_at_zero _ _ _ _ (by omega)
  · rw [e2, shift_lines_ndat, shift_lines_col6_ndat, n2, c2]
    exact upd_oz_at_n _ _ _ _
  · rw [e3, shift_lines_col6_zero, c3]
    exact upd_oz_at_zero _ _ _ _ (by omega)
  · rw [e3, shift_lines_ndat, shift_lines_col6_ndat, n3, c3]
    exact upd_oz_at_n _ _ _ _
  · rw [e4, shift_lines_col6_zero, c4]
    exact upd_no_at_zero _ _ _ _
  · rw [e4, shift_lines_ndat, shift_lines_col6_ndat, n4, c4]
    exact upd_no_at_n _ _ _ _ (by omega)
  · rw [e5, shift_lines_col6_zero, c5]
    exact upd_no_at_zero _ _ _ _
  · rw [e5, shift_lines_ndat, shift_lines_col6_ndat, n5, c5]
    exact upd_no_at_n _ _ _ _ (by omega)
  · rw [e6, shift_lines_col6_zero, c6]
    exact upd_oz_at_zero _ _ _ _ (by omega)
  · rw [e6, shift_lines_ndat, shift_lines_col6_ndat, n6, c6]
    exact upd_oz_at_n _ _ _ _
  · rw [e7, shift_lines_col6_zero, c7]
    exact upd_oz_at_zero _ _ _ _ (by omega)
  · rw [e7, shift_lines_ndat, shift_lines_col6_ndat, n7, c7]
    exact upd_oz_at_n _ _ _ _

/-- Witness for claim C6: the frame property at the concrete sheet sEx and
    propagation fidelity of the NE corner into perimeter sheet 2 on the
    concrete readings exReadings. -/
theorem claimC6_witness :
    (shift_lines 2 sEx).col6 0 = sEx.col6 0 ∧
    (solve_plate exReadings).ws2.col6 0 = (diag_stage exReadings).ws1.col6 0 := by
  have h := claimC6 2 sEx exReadings (by decide)
  exact ⟨h.1.1, h.2.1.1⟩

end Moody
